import Mathlib

/-!
Verification of the `fsqlctl` command staging and dispatch engine.

This file is a shallow embedding of the decision logic of the repository's
five source files (`api.rs`, `repl.rs`, `stdio.rs`, `main.rs`, `config.rs`):
the token classifier, the request dispatcher's outcome classification, the
JSON response decoders, the command routers of the interactive shell and of
the one-shot/pipe driver, and the interactive multi-line input accumulator.

Strings are modelled as `List Char` (with `String` wrappers at the
boundary).  Rust's Unicode-aware `char::is_alphanumeric`,
`char::is_whitespace` and `str::to_lowercase` are modelled on their ASCII
fragments; every concrete input used in the theorems below is ASCII, where
the two coincide.
-/

namespace Fsqlctl

/-! ## Character and string primitives -/

/-- ASCII fragment of Rust `char::is_whitespace` (the characters `trim`
removes from ASCII text): space, tab, line feed, vertical tab, form feed,
carriage return. -/
def isWs (c : Char) : Bool :=
  c.toNat == 32 || c.toNat == 9 || c.toNat == 10 || c.toNat == 13 || c.toNat == 11 ||
    c.toNat == 12

/-- ASCII fragment of Rust `str::to_lowercase`, character by character. -/
def lowerChar (c : Char) : Char :=
  if 65 ≤ c.toNat ∧ c.toNat ≤ 90 then Char.ofNat (c.toNat + 32) else c

/-- `str::to_lowercase` on a character list. -/
def toLowerL (l : List Char) : List Char := l.map lowerChar

/-- `str::trim_start`. -/
def trimLeftL (l : List Char) : List Char := l.dropWhile isWs

/-- `str::trim_end`. -/
def trimRightL (l : List Char) : List Char := (trimLeftL l.reverse).reverse

/-- `str::trim`. -/
def trimL (l : List Char) : List Char := trimRightL (trimLeftL l)

/-! ## Token classifier (src/api.rs:59-82) -/

/-- The character shape test inside `is_jwt_token`: Rust
`c.is_alphanumeric() || c == '-' || c == '_'` (ASCII fragment of
`is_alphanumeric`). -/
def jwtCharOk (c : Char) : Bool :=
  (('a' ≤ c ∧ c ≤ 'z') ∨ ('A' ≤ c ∧ c ≤ 'Z') ∨ ('0' ≤ c ∧ c ≤ '9')) || c == '-' || c == '_'

/-- Rust `str::split('.')`: the (always non-empty) list of segments between
dots; `"".split('.')` is `[""]` and `"a..b".split('.')` is `["a","","b"]`. -/
def splitDot : List Char → List (List Char)
  | [] => [[]]
  | c :: rest =>
    if c = '.' then [] :: splitDot rest
    else
      match splitDot rest with
      | [] => [[c]]
      | p :: ps => (c :: p) :: ps

/-- `strip_bearer_prefix` (src/api.rs:60-66): remove a leading `"Bearer "`
(7 characters) if present. -/
def strip_bearer (token : List Char) : List Char :=
  if "Bearer ".data.isPrefixOf token then token.drop 7 else token

/-- `is_jwt_token` (src/api.rs:69-82): split on `'.'`; exactly 3 parts, all
non-empty and made only of alphanumeric, `-`, `_` characters. -/
def is_jwt_token (token : List Char) : Bool :=
  let parts := splitDot token
  if parts.length ≠ 3 then false
  else parts.all (fun part => (!part.isEmpty) && part.all jwtCharOk)

/-- The two authentication-header strategies chosen in `add_headers`
(src/api.rs:111-128). -/
inductive TokenKind
  | jwt
  | apiKey
  deriving DecidableEq

/-- The classification `add_headers` performs (src/api.rs:95,111): strip the
bearer marker, then shape-test the remainder. -/
def classifyL (token : List Char) : TokenKind :=
  if is_jwt_token (strip_bearer token) then .jwt else .apiKey

/-- `classifyL` on a `String` credential. -/
def classify (token : String) : TokenKind := classifyL token.data

/-! ## Request dispatcher outcome (src/api.rs:134-272) -/

/-- An HTTP response as the dispatcher observes it: a status code and a body
that either can be read as text (`some`) or cannot (`none`). -/
structure HttpResponse where
  status : Nat
  body : Option String
  deriving DecidableEq

/-- `reqwest::StatusCode::is_success`: any 2xx status. -/
def is2xx (n : Nat) : Bool := 200 ≤ n && n ≤ 299

/-- The numeric part of the `Display` rendering of a status code, as
interpolated into the dispatcher's error messages (the optional canonical
reason phrase is elided; the claims concern only the numeric status and the
body). -/
def statusText (n : Nat) : String := toString n

/-- The outcome of `dispatch_command`: the send failed (transport error), a
non-2xx status was classified into an error message, the 2xx body was
returned raw, or the final `response.text().unwrap()` panicked. -/
inductive DispatchResult
  | transportErr
  | httpErr (msg : String)
  | ok (body : String)
  | panicked
  deriving DecidableEq

/-- `dispatch_command` (src/api.rs:134-272) as a function of the HTTP
exchange it observes: `none` models a send error (src/api.rs:191-213);
otherwise the non-2xx branch (src/api.rs:216-263) builds
`"Server returned error {status}: {body}"` or, when the body cannot be
read, `"Server returned error {status} (could not read response body)"`;
the success branch runs `response.text().unwrap()` (src/api.rs:270), which
panics when the body cannot be read. -/
def dispatch_command (exchange : Option HttpResponse) : DispatchResult :=
  match exchange with
  | none => .transportErr
  | some r =>
    if is2xx r.status = false then
      match r.body with
      | some b => .httpErr ("Server returned error " ++ statusText r.status ++ ": " ++ b)
      | none =>
        .httpErr ("Server returned error " ++ statusText r.status ++
          " (could not read response body)")
    else
      match r.body with
      | some b => .ok b
      | none => .panicked

/-! ## JSON values and the text-level parse (the `serde_json::from_str`
collaborator, modelled) -/

/-- A JSON value, mirroring `serde_json::Value`.  Number lexemes are kept as
raw text: no schema field the claims touch decodes a number. -/
inductive Value
  | vNull
  | vBool (flag : Bool)
  | vNumber (lexeme : String)
  | vString (text : String)
  | vArray (items : List Value)
  | vObject (entries : List (String × Value))

/-- JSON insignificant whitespace. -/
def jsonWs (c : Char) : Bool :=
  c.toNat == 32 || c.toNat == 10 || c.toNat == 9 || c.toNat == 13

/-- Drop JSON whitespace. -/
def skipWsJ (l : List Char) : List Char := l.dropWhile jsonWs

/-- Simple escapes inside JSON string literals (`\uXXXX` and the rarer
escapes are not modelled; no concrete input below uses them). -/
def escChar (e : Char) : Option Char :=
  if e == '"' then some '"'
  else if e == '\\' then some '\\'
  else if e == '/' then some '/'
  else if e == 'n' then some '\n'
  else if e == 't' then some '\t'
  else if e == 'r' then some '\r'
  else none

/-- Parse the contents of a JSON string literal after the opening quote,
returning the decoded characters and the rest of the input. -/
def parseStrChars : List Char → Option (List Char × List Char)
  | [] => none
  | a :: more =>
    if a == '"' then some ([], more)
    else if a == '\\' then
      match more with
      | [] => none
      | e :: more' =>
        match escChar e with
        | some decoded => (parseStrChars more').map (fun q => (decoded :: q.1, q.2))
        | none => none
    else (parseStrChars more).map (fun q => (a :: q.1, q.2))

/-- Characters that may appear in a JSON number lexeme. -/
def numChar (c : Char) : Bool :=
  c.isDigit || c == '-' || c == '+' || c == '.' || c == 'e' || c == 'E'

/-- Parse a JSON number lexeme (kept as raw text). -/
def parseNum (l : List Char) : Option (Value × List Char) :=
  match l.takeWhile numChar with
  | [] => none
  | c :: cs =>
    if c.isDigit || c == '-' then
      some (.vNumber ⟨c :: cs⟩, l.drop (c :: cs).length)
    else none

/-- Parse the comma-separated elements of a non-empty JSON array, given a
parser `pv` for one value; rejects a trailing comma, as serde does. -/
def parseItemsLoop (pv : List Char → Option (Value × List Char)) :
    Nat → List Char → Option (List Value × List Char)
  | 0, _ => none
  | fuel + 1, input =>
    match pv input with
    | none => none
    | some (v, more) =>
      match skipWsJ more with
      | [] => none
      | sep :: after =>
        if sep == ',' then (parseItemsLoop pv fuel after).map (fun q => (v :: q.1, q.2))
        else if sep == ']' then some ([v], after)
        else none

/-- Parse the members of a non-empty JSON object, given a parser `pv` for
one value. -/
def parseFieldsLoop (pv : List Char → Option (Value × List Char)) :
    Nat → List Char → Option (List (String × Value) × List Char)
  | 0, _ => none
  | fuel + 1, input =>
    match skipWsJ input with
    | '"' :: r =>
      match parseStrChars r with
      | none => none
      | some (k, r1) =>
        match skipWsJ r1 with
        | ':' :: r2 =>
          match pv r2 with
          | none => none
          | some (v, r3) =>
            match skipWsJ r3 with
            | [] => none
            | sep :: r4 =>
              if sep == ',' then
                (parseFieldsLoop pv fuel r4).map (fun q => ((⟨k⟩, v) :: q.1, q.2))
              else if sep == '}' then some ([(⟨k⟩, v)], r4)
              else none
        | _ => none
    | _ => none

/-- One layer of JSON value parsing; `pv` parses the nested values. -/
def parseStep (pv : List Char → Option (Value × List Char)) (input : List Char) :
    Option (Value × List Char) :=
  let inp := skipWsJ input
  if "null".data.isPrefixOf inp then some (.vNull, inp.drop 4)
  else if "true".data.isPrefixOf inp then some (.vBool true, inp.drop 4)
  else if "false".data.isPrefixOf inp then some (.vBool false, inp.drop 5)
  else
    match inp with
    | '"' :: rest => (parseStrChars rest).map (fun p => (Value.vString ⟨p.1⟩, p.2))
    | '[' :: rest =>
      match skipWsJ rest with
      | ']' :: r => some (.vArray [], r)
      | r => (parseItemsLoop pv (r.length + 1) r).map (fun p => (Value.vArray p.1, p.2))
    | '{' :: rest =>
      match skipWsJ rest with
      | '}' :: r => some (.vObject [], r)
      | r => (parseFieldsLoop pv (r.length + 1) r).map (fun p => (Value.vObject p.1, p.2))
    | _ => parseNum inp

/-- Fuel-indexed JSON value parser (fuel bounds the nesting depth). -/
def parseVal (fuel : Nat) : List Char → Option (Value × List Char) :=
  Nat.rec (motive := fun _ => List Char → Option (Value × List Char))
    (fun _ => none)
    (fun _ ih input => parseStep ih input)
    fuel

/-- The `serde_json::from_str` collaborator, modelled: parse one JSON value
and require only whitespace after it. -/
def from_str (s : String) : Option Value :=
  match parseVal (s.data.length + 1) s.data with
  | some (j, rest) => if skipWsJ rest = [] then some j else none
  | none => none

/-! ## Response schemas (src/api.rs:14-57) and their decoders -/

/-- First binding of a field name in a JSON object. -/
def getField (entries : List (String × Value)) (k : String) : Option Value :=
  match entries with
  | [] => none
  | (k', v) :: rest => if k' = k then some v else getField rest k

/-- A JSON string, or nothing. -/
def asString : Value → Option String
  | .vString s => some s
  | _ => none

/-- Decode a JSON array of strings (`Vec<String>`). -/
def decodeStringList : List Value → Option (List String)
  | [] => some []
  | j :: rest =>
    match asString j with
    | some s => (decodeStringList rest).map (fun l => s :: l)
    | none => none

/-- `ValidateResponse` (src/api.rs:44-48): `{command: String, is_valid: bool}`. -/
structure ValidateResponse where
  command : String
  is_valid : Bool
  deriving DecidableEq

/-- `QueryResponse` (src/api.rs:51-57). -/
structure QueryResponse where
  command : String
  search_id : String
  trace_id : String
  results : List Value

/-- `ExplainResponse` (src/api.rs:36-41): `expanded_query` is an arbitrary
`serde_json::Value`. -/
structure ExplainResponse where
  command : String
  input : String
  expanded_query : Value

/-- `ExplainConnectorsResponse` (src/api.rs:14-18). -/
structure ExplainConnectorsResponse where
  command : String
  connectors : List Value

/-- `ExplainVersionResponse` (src/api.rs:21-26). -/
structure ExplainVersionResponse where
  command : String
  fsql : String
  qdm : String
  deriving DecidableEq

/-- `ExplainAttributesResponse` (src/api.rs:29-33). -/
structure ExplainAttributesResponse where
  command : String
  attributes : List String
  deriving DecidableEq

/-- Modelled from the spec: `ExplainSchemaResponse` is referenced by
src/repl.rs:151 and src/stdio.rs:51 but its declaration is missing from
src/api.rs (the repository holds superseded revisions); its fields are the
ones those handlers read: `command` and a free-form `schema` value. -/
structure ExplainSchemaResponse where
  command : String
  schema : Value

/-- Modelled from the spec: `ExplainGraphqlResponse` is referenced by
src/repl.rs:53 and src/stdio.rs:184 but its declaration is missing from
src/api.rs; its fields are the ones those handlers read: `command` and the
translated `query` text. -/
structure ExplainGraphqlResponse where
  command : String
  query : String
  deriving DecidableEq

/-- Modelled from the spec: `SummarizeResponse` is referenced by
src/stdio.rs:153 but its declaration is missing from src/api.rs and the
spec gives it no field list; it is modelled minimally with the `command`
field every other response schema carries.  No claim depends on its exact
fields. -/
structure SummarizeResponse where
  command : String
  deriving DecidableEq

/-- serde decoding of `ValidateResponse`: an object with a string `command`
and a boolean `is_valid` (unknown extra fields are allowed, as serde's
default derive allows them). -/
def decodeValidate : Value → Option ValidateResponse
  | .vObject fs =>
    match getField fs "command", getField fs "is_valid" with
    | some (.vString c), some (.vBool b) => some ⟨c, b⟩
    | _, _ => none
  | _ => none

/-- serde decoding of `QueryResponse`. -/
def decodeQuery : Value → Option QueryResponse
  | .vObject fs =>
    match getField fs "command", getField fs "search_id",
        getField fs "trace_id", getField fs "results" with
    | some (.vString c), some (.vString s), some (.vString t), some (.vArray rs) =>
      some ⟨c, s, t, rs⟩
    | _, _, _, _ => none
  | _ => none

/-- serde decoding of `ExplainResponse`. -/
def decodeExplain : Value → Option ExplainResponse
  | .vObject fs =>
    match getField fs "command", getField fs "input", getField fs "expanded_query" with
    | some (.vString c), some (.vString i), some q => some ⟨c, i, q⟩
    | _, _, _ => none
  | _ => none

/-- serde decoding of `ExplainConnectorsResponse`. -/
def decodeExplainConnectors : Value → Option ExplainConnectorsResponse
  | .vObject fs =>
    match getField fs "command", getField fs "connectors" with
    | some (.vString c), some (.vArray cs) => some ⟨c, cs⟩
    | _, _ => none
  | _ => none

/-- serde decoding of `ExplainVersionResponse`. -/
def decodeExplainVersion : Value → Option ExplainVersionResponse
  | .vObject fs =>
    match getField fs "command", getField fs "fsql", getField fs "qdm" with
    | some (.vString c), some (.vString f), some (.vString q) => some ⟨c, f, q⟩
    | _, _, _ => none
  | _ => none

/-- serde decoding of `ExplainAttributesResponse`. -/
def decodeExplainAttributes : Value → Option ExplainAttributesResponse
  | .vObject fs =>
    match getField fs "command", getField fs "attributes" with
    | some (.vString c), some (.vArray xs) =>
      (decodeStringList xs).map (fun l => ⟨c, l⟩)
    | _, _ => none
  | _ => none

/-- serde decoding of `ExplainSchemaResponse`. -/
def decodeExplainSchema : Value → Option ExplainSchemaResponse
  | .vObject fs =>
    match getField fs "command", getField fs "schema" with
    | some (.vString c), some s => some ⟨c, s⟩
    | _, _ => none
  | _ => none

/-- serde decoding of `ExplainGraphqlResponse`. -/
def decodeExplainGraphql : Value → Option ExplainGraphqlResponse
  | .vObject fs =>
    match getField fs "command", getField fs "query" with
    | some (.vString c), some (.vString q) => some ⟨c, q⟩
    | _, _ => none
  | _ => none

/-- serde decoding of `SummarizeResponse`. -/
def decodeSummarize : Value → Option SummarizeResponse
  | .vObject fs =>
    match getField fs "command" with
    | some (.vString c) => some ⟨c⟩
    | _ => none
  | _ => none

/-- `serde_json::from_str::<ValidateResponse>` on raw body text. -/
def decodeValidateStr (raw : String) : Option ValidateResponse :=
  (from_str raw).bind decodeValidate

/-- `serde_json::from_str::<QueryResponse>` on raw body text. -/
def decodeQueryStr (raw : String) : Option QueryResponse :=
  (from_str raw).bind decodeQuery

/-- `serde_json::from_str::<ExplainResponse>` on raw body text. -/
def decodeExplainStr (raw : String) : Option ExplainResponse :=
  (from_str raw).bind decodeExplain

/-- `serde_json::from_str::<ExplainConnectorsResponse>` on raw body text. -/
def decodeExplainConnectorsStr (raw : String) : Option ExplainConnectorsResponse :=
  (from_str raw).bind decodeExplainConnectors

/-- `serde_json::from_str::<ExplainVersionResponse>` on raw body text. -/
def decodeExplainVersionStr (raw : String) : Option ExplainVersionResponse :=
  (from_str raw).bind decodeExplainVersion

/-- `serde_json::from_str::<ExplainAttributesResponse>` on raw body text. -/
def decodeExplainAttributesStr (raw : String) : Option ExplainAttributesResponse :=
  (from_str raw).bind decodeExplainAttributes

/-- `serde_json::from_str::<ExplainSchemaResponse>` on raw body text. -/
def decodeExplainSchemaStr (raw : String) : Option ExplainSchemaResponse :=
  (from_str raw).bind decodeExplainSchema

/-- `serde_json::from_str::<ExplainGraphqlResponse>` on raw body text. -/
def decodeExplainGraphqlStr (raw : String) : Option ExplainGraphqlResponse :=
  (from_str raw).bind decodeExplainGraphql

/-- `serde_json::from_str::<SummarizeResponse>` on raw body text. -/
def decodeSummarizeStr (raw : String) : Option SummarizeResponse :=
  (from_str raw).bind decodeSummarize

/-! ## Command routers (src/stdio.rs:333-362, src/repl.rs:420-457) -/

/-- Command kinds: the routed command shapes of both drivers.  `help`,
`clear` and `exit` occur only in the interactive router. -/
inductive CommandKind
  | query
  | explain
  | explainVersion
  | explainConnectors
  | explainAttributes
  | explainSchema
  | explainGraphql
  | validate
  | summarize
  | help
  | clear
  | exit
  | invalid
  deriving DecidableEq

/-- The prefix cascade of `process_command` (src/stdio.rs:340-361), applied
to the lower-cased input text. -/
def stdioRoute (low : List Char) : CommandKind :=
  if "explain connectors".data.isPrefixOf low then .explainConnectors
  else if "explain schema ".data.isPrefixOf low then .explainSchema
  else if "explain graphql ".data.isPrefixOf low then .explainGraphql
  else if "explain version".data.isPrefixOf low then .explainVersion
  else if "explain attributes ".data.isPrefixOf low then .explainAttributes
  else if "explain ".data.isPrefixOf low then .explain
  else if "summarize ".data.isPrefixOf low then .summarize
  else if "validate ".data.isPrefixOf low then .validate
  else if "query ".data.isPrefixOf low then .query
  else .invalid

/-- `process_command` (src/stdio.rs:333-362): empty input is invalid
(src/stdio.rs:334-337); otherwise the input is lower-cased (but NOT
trimmed) and matched against the prefix cascade. -/
def classifyStdioL (input : List Char) : CommandKind :=
  if input = [] then .invalid else stdioRoute (toLowerL input)

/-- `process_command` on a `String`. -/
def classifyStdio (s : String) : CommandKind := classifyStdioL s.data

/-- The routing seen through `handle_stdin`/`handle_file`
(src/stdio.rs:365-397): the whole payload is read, trimmed once, and handed
to `process_command`. -/
def pipeRoute (s : String) : CommandKind := classifyStdioL (trimL s.data)

/-- The prefix cascade of the interactive shell (src/repl.rs:433-457),
applied to the lower-cased trimmed input.  There is no `summarize` branch
in this router. -/
def replRoute (low : List Char) : CommandKind :=
  if "validate ".data.isPrefixOf low then .validate
  else if "explain schema ".data.isPrefixOf low then .explainSchema
  else if "explain graphql ".data.isPrefixOf low then .explainGraphql
  else if "explain version".data.isPrefixOf low then .explainVersion
  else if "explain connectors".data.isPrefixOf low then .explainConnectors
  else if "explain attributes ".data.isPrefixOf low then .explainAttributes
  else if "explain ".data.isPrefixOf low then .explain
  else if "query ".data.isPrefixOf low then .query
  else if low = "help".data ∨ low = "h".data then .help
  else if low = "clear".data then .clear
  else if low = "exit".data then .exit
  else .invalid

/-- The interactive router on (already trimmed) input text
(src/repl.rs:430-457): lower-case, then match. -/
def classifyReplL (t : List Char) : CommandKind := replRoute (toLowerL t)

/-- What the interactive outer loop does with a staged buffer. -/
inductive ReplOutcome
  | skipped
  | routed (k : CommandKind)
  deriving DecidableEq

/-- The interactive outer loop on a staged buffer (src/repl.rs:420-457):
trim it; skip it silently when the trimmed input is empty
(src/repl.rs:422-425); otherwise route the trimmed input. -/
def replProcessInput (buf : List Char) : ReplOutcome :=
  let t := trimL buf
  if t = [] then .skipped else .routed (classifyReplL t)

/-! ## Interactive input accumulator (src/repl.rs:339-418) -/

/-- The accumulator's mutable state: the buffer, the line count, and the
count of consecutive blank lines (src/repl.rs:341-343). -/
structure AccState where
  input : List Char
  lineCount : Nat
  consecutiveEmpty : Nat
  deriving DecidableEq

/-- The fresh accumulator state. -/
def accEmpty : AccState := ⟨[], 0, 0⟩

/-- The result of feeding one line: keep accumulating, or stage the buffer. -/
inductive StepResult
  | cont (s : AccState)
  | staged (buffer : List Char)
  deriving DecidableEq

/-- One iteration of the inner read loop (src/repl.rs:352-399) on a
received line: handle `\reset` after the first line (src/repl.rs:359-367),
append the line plus `'\n'` (src/repl.rs:369-371), track consecutive blank
lines (src/repl.rs:374-378), and stage when a blank line arrives
(threshold 1), on a bare first line with no space, or on a trailing `;`
(src/repl.rs:384-393); the first-line-blank break (src/repl.rs:396-398) is
kept although the blank-line rule already fires on that input. -/
def accStep (s : AccState) (line : List Char) : StepResult :=
  let trimmed := trimL line
  let lower := toLowerL trimmed
  if s.lineCount > 0 ∧ lower = "\\reset".data then
    .cont accEmpty
  else
    let input' := s.input ++ line ++ ['\n']
    let lineCount' := s.lineCount + 1
    let consecutiveEmpty' := if trimmed = [] then s.consecutiveEmpty + 1 else 0
    if consecutiveEmpty' ≥ 1 then .staged input'
    else if lineCount' = 1 ∧ trimmed ≠ [] ∧ ¬ trimmed.contains ' ' then .staged input'
    else if trimmed.getLast? = some ';' then .staged input'
    else if lineCount' = 1 ∧ trimmed = [] then .staged input'
    else .cont ⟨input', lineCount', consecutiveEmpty'⟩

/-- Feed lines to the accumulator until one stages a buffer; the staged
buffer is trimmed as the outer loop does (src/repl.rs:420).  `none` means
the given lines leave the accumulator still waiting for more input. -/
def runAccum : AccState → List (List Char) → Option (List Char)
  | _, [] => none
  | s, line :: rest =>
    match accStep s line with
    | .staged buffer => some (trimL buffer)
    | .cont s' => runAccum s' rest

/-- One full interactive cycle: accumulate lines into a staged command and
hand it to the outer loop's skip-or-route step. -/
def replCycle (lines : List (List Char)) : Option ReplOutcome :=
  (runAccum accEmpty lines).map replProcessInput

/-! ## Response handler outcomes (src/repl.rs:11-291, src/stdio.rs:10-331) -/

/-- What an interactive handler does with a successful dispatch body:
render the decoded structure, or print the raw body verbatim as the
fallback (the `Err` arm of each `serde_json::from_str` match). -/
inductive HandlerOut
  | usedDecoded
  | usedFallback (raw : String)
  deriving DecidableEq

/-- What a one-shot handler does with a successful dispatch body: render
the decoded structure (and, for validate, terminate with an exit code), or
print the raw body verbatim (and, for validate, terminate with exit code 1). -/
inductive StdioOut
  | decodedOk
  | decodedExit (code : Nat)
  | fallback (raw : String)
  | fallbackExit (raw : String) (code : Nat)
  deriving DecidableEq

/-- Whether decoding `raw` against the schema of command kind `k` fails.
Kinds with no response schema report `true` vacuously; they have no
handler below. -/
def decodeFails (k : CommandKind) (raw : String) : Bool :=
  match k with
  | .query => (decodeQueryStr raw).isNone
  | .explain => (decodeExplainStr raw).isNone
  | .explainVersion => (decodeExplainVersionStr raw).isNone
  | .explainConnectors => (decodeExplainConnectorsStr raw).isNone
  | .explainAttributes => (decodeExplainAttributesStr raw).isNone
  | .explainSchema => (decodeExplainSchemaStr raw).isNone
  | .explainGraphql => (decodeExplainGraphqlStr raw).isNone
  | .validate => (decodeValidateStr raw).isNone
  | .summarize => (decodeSummarizeStr raw).isNone
  | .help => true
  | .clear => true
  | .exit => true
  | .invalid => true

/-- The decode-or-fallback step of each interactive handler
(src/repl.rs:11-291) on a successful dispatch body: every handler's parse
`Err` arm prints the raw response text and returns, so the interactive
session continues.  Kinds the interactive router never dispatches
(`summarize` included, src/repl.rs:433-457) have no handler: `none`. -/
def replHandlerOut (k : CommandKind) (raw : String) : Option HandlerOut :=
  match k with
  | .validate =>
    some (match decodeValidateStr raw with
      | some _ => .usedDecoded
      | none => .usedFallback raw)
  | .query =>
    some (match decodeQueryStr raw with
      | some _ => .usedDecoded
      | none => .usedFallback raw)
  | .explain =>
    some (match decodeExplainStr raw with
      | some _ => .usedDecoded
      | none => .usedFallback raw)
  | .explainVersion =>
    some (match decodeExplainVersionStr raw with
      | some _ => .usedDecoded
      | none => .usedFallback raw)
  | .explainConnectors =>
    some (match decodeExplainConnectorsStr raw with
      | some _ => .usedDecoded
      | none => .usedFallback raw)
  | .explainAttributes =>
    some (match decodeExplainAttributesStr raw with
      | some _ => .usedDecoded
      | none => .usedFallback raw)
  | .explainSchema =>
    some (match decodeExplainSchemaStr raw with
      | some _ => .usedDecoded
      | none => .usedFallback raw)
  | .explainGraphql =>
    some (match decodeExplainGraphqlStr raw with
      | some _ => .usedDecoded
      | none => .usedFallback raw)
  | _ => none

/-- The decode-or-fallback step of each one-shot handler
(src/stdio.rs:10-331) on a successful dispatch body.  `handle_validate`
(src/stdio.rs:251-287) terminates the process: exit code 0 when
`is_valid` is true, 1 when it is false (src/stdio.rs:265-271), and 1 after
printing the raw body when decoding fails (src/stdio.rs:273-279).  Every
other handler prints the raw body on decode failure and returns without
exiting. -/
def stdioHandlerOut (k : CommandKind) (raw : String) : Option StdioOut :=
  match k with
  | .validate =>
    some (match decodeValidateStr raw with
      | some d => .decodedExit (if d.is_valid then 0 else 1)
      | none => .fallbackExit raw 1)
  | .query =>
    some (match decodeQueryStr raw with
      | some _ => .decodedOk
      | none => .fallback raw)
  | .explain =>
    some (match decodeExplainStr raw with
      | some _ => .decodedOk
      | none => .fallback raw)
  | .explainVersion =>
    some (match decodeExplainVersionStr raw with
      | some _ => .decodedOk
      | none => .fallback raw)
  | .explainConnectors =>
    some (match decodeExplainConnectorsStr raw with
      | some _ => .decodedOk
      | none => .fallback raw)
  | .explainAttributes =>
    some (match decodeExplainAttributesStr raw with
      | some _ => .decodedOk
      | none => .fallback raw)
  | .explainSchema =>
    some (match decodeExplainSchemaStr raw with
      | some _ => .decodedOk
      | none => .fallback raw)
  | .explainGraphql =>
    some (match decodeExplainGraphqlStr raw with
      | some _ => .decodedOk
      | none => .fallback raw)
  | .summarize =>
    some (match decodeSummarizeStr raw with
      | some _ => .decodedOk
      | none => .fallback raw)
  | _ => none

/-! ## Helper lemmas -/

/-- Two prefixes of the same list are comparable. -/
theorem prefixTotal {p q l : List Char} (hp : p <+: l) (hq : q <+: l) :
    p <+: q ∨ q <+: p := by
  rcases le_total p.length q.length with h | h
  · left
    have e1 : p = l.take p.length := List.prefix_iff_eq_take.mp hp
    have e2 : q = l.take q.length := List.prefix_iff_eq_take.mp hq
    have e3 : p = q.take p.length := by
      rw [e2, List.take_take, min_eq_left h, ← e1]
    rw [e3]; exact List.take_prefix _ _
  · right
    have e1 : p = l.take p.length := List.prefix_iff_eq_take.mp hp
    have e2 : q = l.take q.length := List.prefix_iff_eq_take.mp hq
    have e3 : q = p.take q.length := by
      rw [e1, List.take_take, min_eq_left h, ← e2]
    rw [e3]; exact List.take_prefix _ _

/-- If `p` prefixes `l` and `p`, `q` are incomparable, `q` does not prefix `l`. -/
theorem isPrefixOf_false_of_incomp {p q l : List Char} (hp : p.isPrefixOf l = true)
    (h1 : p.isPrefixOf q = false) (h2 : q.isPrefixOf p = false) :
    q.isPrefixOf l = false := by
  cases hq : q.isPrefixOf l
  · rfl
  · exfalso
    have hp' : p <+: l := List.isPrefixOf_iff_prefix.mp hp
    have hq' : q <+: l := List.isPrefixOf_iff_prefix.mp hq
    rcases prefixTotal hp' hq' with h | h
    · have hb := List.isPrefixOf_iff_prefix.mpr h
      rw [h1] at hb; exact Bool.noConfusion hb
    · have hb := List.isPrefixOf_iff_prefix.mpr h
      rw [h2] at hb; exact Bool.noConfusion hb

/-- A list with prefix `p` differs from any list `p` does not prefix. -/
theorem ne_of_isPrefixOf {p l q : List Char} (hp : p.isPrefixOf l = true)
    (hq : p.isPrefixOf q = false) : l ≠ q := by
  intro h; rw [h, hq] at hp; exact Bool.noConfusion hp

/-- The trailing-trim leaves a prefix of the original list. -/
theorem trimRightL_prefix (l : List Char) : trimRightL l <+: l := by
  unfold trimRightL trimLeftL
  have h : l.reverse.dropWhile isWs <:+ l.reverse := List.dropWhile_suffix isWs
  have h2 := List.reverse_prefix.mpr h
  simpa using h2

/-- Trimming a list whose head is not whitespace leaves a prefix of it. -/
theorem trimL_prefix_of_head_not_ws {c : Char} {rest : List Char}
    (h : isWs c = false) : trimL (c :: rest) <+: c :: rest := by
  unfold trimL
  have e : trimLeftL (c :: rest) = c :: rest := by
    simp [trimLeftL, List.dropWhile_cons, h]
  rw [e]
  exact trimRightL_prefix _

/-- A prefix of the lower-cased trimmed text is a prefix of the lower-cased
raw text when the raw text does not start with whitespace. -/
theorem isPrefixOf_toLower_of_trim {p l : List Char} {c : Char} {rest : List Char}
    (hl : l = c :: rest) (hws : isWs c = false)
    (hp : p.isPrefixOf (toLowerL (trimL l)) = true) :
    p.isPrefixOf (toLowerL l) = true := by
  subst hl
  have h1 : trimL (c :: rest) <+: c :: rest := trimL_prefix_of_head_not_ws hws
  have h2 : toLowerL (trimL (c :: rest)) <+: toLowerL (c :: rest) := h1.map lowerChar
  exact List.isPrefixOf_iff_prefix.mpr ((List.isPrefixOf_iff_prefix.mp hp).trans h2)

/-- Whitespace characters sit below the uppercase letters in code-point order. -/
theorem ws_toNat_lt {c : Char} (h : isWs c = true) : c.toNat < 65 := by
  simp only [isWs, Bool.or_eq_true, beq_iff_eq] at h
  rcases h with ((((h | h) | h) | h) | h) | h <;> omega

/-- `lowerChar` fixes characters below the uppercase range. -/
theorem lowerChar_eq_of_lt {c : Char} (h : c.toNat < 65) : lowerChar c = c := by
  unfold lowerChar
  rw [if_neg (by omega : ¬(65 ≤ c.toNat ∧ c.toNat ≤ 90))]

/-- No letter (code point at least 65) matches a lower-cased whitespace
character. -/
theorem beq_lowerChar_ws_false {a c : Char} (hws : isWs c = true)
    (ha : 65 ≤ a.toNat) : (a == lowerChar c) = false := by
  rw [lowerChar_eq_of_lt (ws_toNat_lt hws)]
  cases hb : a == c
  · rfl
  · exfalso
    have : a = c := by simpa using hb
    subst this
    have := ws_toNat_lt hws
    omega

/-- Head agreement is forced by a cons-to-cons prefix. -/
theorem head_beq_of_isPrefixOf {a b : Char} {p l : List Char}
    (h : (a :: p).isPrefixOf (b :: l) = true) : (a == b) = true := by
  simp only [List.isPrefixOf, Bool.and_eq_true] at h
  exact h.1

/-- The Bool form of `is_jwt_token`, unfolded to the spec's shape condition. -/
theorem is_jwt_token_iff (l : List Char) :
    is_jwt_token l = true ↔
      ((splitDot l).length = 3 ∧
        ∀ part ∈ splitDot l, part ≠ [] ∧ ∀ c ∈ part, jwtCharOk c = true) := by
  unfold is_jwt_token
  by_cases h : (splitDot l).length = 3
  · rw [if_neg (by simp [h])]
    simp only [List.all_eq_true, Bool.and_eq_true, Bool.not_eq_true', h, true_and,
      ne_eq, Bool.eq_false_iff, List.isEmpty_iff]
  · rw [if_pos h]
    simp [h]

/-- `classifyL` returns `.jwt` exactly when the stripped token has JWT shape. -/
theorem classifyL_jwt_iff (l : List Char) :
    classifyL l = TokenKind.jwt ↔ is_jwt_token (strip_bearer l) = true := by
  unfold classifyL
  split_ifs with h <;> simp [h]

/-! ## Claim theorems -/

/-- C1: for every credential string, after stripping an optional leading
`"Bearer "` marker, the classifier returns `Jwt` iff splitting the
remainder on `'.'` yields exactly 3 non-empty segments of alphanumeric,
`-`, `_` characters (first conjunct, as claimed); and the classification of
the credential with the `"Bearer "` marker prepended equals that of the
bare credential PROVIDED the bare credential does not itself begin with
`"Bearer "` (the proviso the counterexample forces: stripping removes only
one marker). -/
theorem c1_token_classifier :
    (∀ s : String, classify s = TokenKind.jwt ↔
      ((splitDot (strip_bearer s.data)).length = 3 ∧
        ∀ part ∈ splitDot (strip_bearer s.data),
          part ≠ [] ∧ ∀ c ∈ part, jwtCharOk c = true)) ∧
    (∀ l : List Char, "Bearer ".data.isPrefixOf l = false →
      classifyL ("Bearer ".data ++ l) = classifyL l) := by
  constructor
  · intro s
    rw [classify, classifyL_jwt_iff, is_jwt_token_iff]
  · intro l h
    have e1 : strip_bearer ("Bearer ".data ++ l) = l := by
      unfold strip_bearer
      rw [if_pos (List.isPrefixOf_iff_prefix.mpr ⟨l, rfl⟩)]
      have e : ("Bearer ".data).length = 7 := by decide
      rw [← e, List.drop_left]
    have e2 : strip_bearer l = l := by
      unfold strip_bearer
      rw [if_neg (by simp [h])]
    unfold classifyL
    rw [e1, e2]

/-- C1 counterexample: for the credential `"Bearer a.b.c"` (which itself
begins with the bearer marker), prepending `"Bearer "` changes the
classification: the claim's invariance conjunct fails as universally
stated, because `strip_bearer_prefix` removes only one marker. -/
theorem c1_counterexample :
    classify "Bearer a.b.c" = TokenKind.jwt ∧
    classify "Bearer Bearer a.b.c" = TokenKind.apiKey ∧
    classify "Bearer Bearer a.b.c" ≠ classify "Bearer a.b.c" := by decide

/-- C1 witness: the amended invariance applied to the concrete credential
`"x.y.z"`, which does not begin with the bearer marker. -/
theorem c1_witness :
    classifyL ("Bearer ".data ++ "x.y.z".data) = classifyL "x.y.z".data :=
  c1_token_classifier.2 "x.y.z".data (by decide)

/-- C2 (amended): the dispatcher returns `Ok` with the raw body exactly
when the status is 2xx AND the body can be read (on a 2xx response with an
unreadable body it panics instead — see the counterexample); for every
non-2xx status it returns an error carrying the numeric status and the
body verbatim, or the could-not-read placeholder. -/
theorem c2_dispatch_outcomes :
    ∀ (r : HttpResponse) (b : String),
      (dispatch_command (some r) = DispatchResult.ok b ↔
        (is2xx r.status = true ∧ r.body = some b)) ∧
      (is2xx r.status = false → r.body = some b →
        dispatch_command (some r) =
          DispatchResult.httpErr
            ("Server returned error " ++ statusText r.status ++ ": " ++ b)) ∧
      (is2xx r.status = false → r.body = none →
        dispatch_command (some r) =
          DispatchResult.httpErr
            ("Server returned error " ++ statusText r.status ++
              " (could not read response body)")) := by
  rintro ⟨st, bd⟩ b
  refine ⟨?_, fun h2 hb => ?_, fun h2 hb => ?_⟩
  · cases h2 : is2xx st <;> cases bd <;> simp [dispatch_command, h2]
  · subst hb; simp [dispatch_command, h2]
  · subst hb; simp [dispatch_command, h2]

/-- C2 counterexample: a 2xx response whose body cannot be read makes
`dispatch_command` panic (the `panicked` outcome, a constructor distinct
from `ok _`), so "returns Ok ... exactly when the status is 2xx" fails in
the 2xx-implies-Ok direction. -/
theorem c2_counterexample :
    is2xx 200 = true ∧
    dispatch_command (some ⟨200, none⟩) = DispatchResult.panicked := by decide

/-- C2 witness: the non-2xx readable-body arm at status 404 with body
`"x"`. -/
theorem c2_witness :
    dispatch_command (some ⟨404, some "x"⟩) =
      DispatchResult.httpErr "Server returned error 404: x" :=
  (c2_dispatch_outcomes ⟨404, some "x"⟩ "x").2.1 (by decide) rfl

/-- C10: the dispatcher's success path is not total: on a 2xx response
whose body cannot be read it panics (`response.text().unwrap()`,
src/api.rs:270) instead of returning an error value, unlike the non-2xx
path, which replaces an unreadable body with a placeholder message. -/
theorem c10_success_path_panics :
    is2xx 204 = true ∧
    dispatch_command (some ⟨204, none⟩) = DispatchResult.panicked ∧
    dispatch_command (some ⟨404, none⟩) =
      DispatchResult.httpErr
        "Server returned error 404 (could not read response body)" := by decide

/-- C4 (amended): for every command kind and every body failing its schema
decode, both drivers emit the raw body text verbatim as the fallback
rendering (no other outcome is possible, so no crash escapes); in the
interactive driver this is never fatal, and in the one-shot driver it is
never fatal except for the Validate kind, whose decode failure additionally
terminates the process with exit code 1 (see the counterexample). -/
theorem c4_decode_fallback :
    ∀ (k : CommandKind) (raw : String), decodeFails k raw = true →
      (replHandlerOut k raw = some (HandlerOut.usedFallback raw) ∨
        replHandlerOut k raw = none) ∧
      (stdioHandlerOut k raw = some (StdioOut.fallback raw) ∨
        stdioHandlerOut k raw = some (StdioOut.fallbackExit raw 1) ∨
        stdioHandlerOut k raw = none) ∧
      (k ≠ CommandKind.validate →
        stdioHandlerOut k raw = some (StdioOut.fallback raw) ∨
        stdioHandlerOut k raw = none) := by
  intro k raw h
  cases k <;>
    simp only [decodeFails, Option.isNone_iff_eq_none] at h <;>
    simp [replHandlerOut, stdioHandlerOut, h]

/-- C4 counterexample: a Validate body that is valid JSON but lacks the
`is_valid` field decodes to nothing, and the one-shot `handle_validate`
prints the raw body verbatim and then terminates the process with exit
code 1 (src/stdio.rs:273-279) — so "this decode failure is never fatal to
the session" fails for the Validate kind in one-shot mode. -/
theorem c4_counterexample :
    from_str "\x7b\"command\":\"x\"\x7d" = some (Value.vObject [("command", Value.vString "x")]) ∧
    decodeValidateStr "\x7b\"command\":\"x\"\x7d" = none ∧
    stdioHandlerOut CommandKind.validate "\x7b\"command\":\"x\"\x7d" =
      some (StdioOut.fallbackExit "\x7b\"command\":\"x\"\x7d" 1) :=
  ⟨rfl, by decide, by decide⟩

/-- C4 witness: the amended theorem applied to the Query kind and the
unparsable body `"not json"`. -/
theorem c4_witness :
    replHandlerOut CommandKind.query "not json" =
      some (HandlerOut.usedFallback "not json") ∨
    replHandlerOut CommandKind.query "not json" = none :=
  (c4_decode_fallback CommandKind.query "not json" (by decide)).1

/-- C7: outside the interactive shell, a decoded Validate response
terminates the process with exit code 0 when `is_valid` is true and exit
code 1 when it is false (src/stdio.rs:265-271). -/
theorem c7_validate_exit_codes :
    ∀ (raw : String) (d : ValidateResponse), decodeValidateStr raw = some d →
      (d.is_valid = true →
        stdioHandlerOut CommandKind.validate raw = some (StdioOut.decodedExit 0)) ∧
      (d.is_valid = false →
        stdioHandlerOut CommandKind.validate raw = some (StdioOut.decodedExit 1)) := by
  intro raw d h
  constructor <;> intro hv <;> simp [stdioHandlerOut, h, hv]

/-- C7 witness: the spec's end-to-end scenario body
`{"command":"validate q = 1","is_valid":true}` decodes as valid and exits
with code 0. -/
theorem c7_witness :
    stdioHandlerOut CommandKind.validate
        "\x7b\"command\":\"validate q = 1\",\"is_valid\":true\x7d" =
      some (StdioOut.decodedExit 0) :=
  (c7_validate_exit_codes "\x7b\"command\":\"validate q = 1\",\"is_valid\":true\x7d"
    ⟨"validate q = 1", true⟩ (by decide)).1 rfl

/-- If `p` prefixes `q` but does not prefix `l`, then `q` does not prefix `l`. -/
theorem isPrefixOf_false_of_sub {p q l : List Char} (hpq : p.isPrefixOf q = true)
    (hl : p.isPrefixOf l = false) : q.isPrefixOf l = false := by
  cases hq : q.isPrefixOf l
  · rfl
  · exfalso
    have h1 : p <+: q := List.isPrefixOf_iff_prefix.mp hpq
    have h2 : q <+: l := List.isPrefixOf_iff_prefix.mp hq
    have hb := List.isPrefixOf_iff_prefix.mpr (h1.trans h2)
    rw [hl] at hb
    exact Bool.noConfusion hb

/-- One-shot cascade evaluation under an `"explain connectors"` prefix. -/
theorem stdioRoute_connectors {low : List Char}
    (hp : "explain connectors".data.isPrefixOf low = true) :
    stdioRoute low = CommandKind.explainConnectors := by
  simp [stdioRoute, hp]

/-- One-shot cascade evaluation under an `"explain schema "` prefix. -/
theorem stdioRoute_schema {low : List Char}
    (hp : "explain schema ".data.isPrefixOf low = true) :
    stdioRoute low = CommandKind.explainSchema := by
  have h1 : "explain connectors".data.isPrefixOf low = false :=
    isPrefixOf_false_of_incomp hp (by decide) (by decide)
  simp [stdioRoute, hp, h1]

/-- One-shot cascade evaluation under an `"explain graphql "` prefix. -/
theorem stdioRoute_graphql {low : List Char}
    (hp : "explain graphql ".data.isPrefixOf low = true) :
    stdioRoute low = CommandKind.explainGraphql := by
  have h1 : "explain connectors".data.isPrefixOf low = false :=
    isPrefixOf_false_of_incomp hp (by decide) (by decide)
  have h2 : "explain schema ".data.isPrefixOf low = false :=
    isPrefixOf_false_of_incomp hp (by decide) (by decide)
  simp [stdioRoute, hp, h1, h2]

/-- One-shot cascade evaluation under an `"explain version"` prefix. -/
theorem stdioRoute_version {low : List Char}
    (hp : "explain version".data.isPrefixOf low = true) :
    stdioRoute low = CommandKind.explainVersion := by
  have h1 : "explain connectors".data.isPrefixOf low = false :=
    isPrefixOf_false_of_incomp hp (by decide) (by decide)
  have h2 : "explain schema ".data.isPrefixOf low = false :=
    isPrefixOf_false_of_incomp hp (by decide) (by decide)
  have h3 : "explain graphql ".data.isPrefixOf low = false :=
    isPrefixOf_false_of_incomp hp (by decide) (by decide)
  simp [stdioRoute, hp, h1, h2, h3]

/-- One-shot cascade evaluation under an `"explain attributes "` prefix. -/
theorem stdioRoute_attributes {low : List Char}
    (hp : "explain attributes ".data.isPrefixOf low = true) :
    stdioRoute low = CommandKind.explainAttributes := by
  have h1 : "explain connectors".data.isPrefixOf low = false :=
    isPrefixOf_false_of_incomp hp (by decide) (by decide)
  have h2 : "explain schema ".data.isPrefixOf low = false :=
    isPrefixOf_false_of_incomp hp (by decide) (by decide)
  have h3 : "explain graphql ".data.isPrefixOf low = false :=
    isPrefixOf_false_of_incomp hp (by decide) (by decide)
  have h4 : "explain version".data.isPrefixOf low = false :=
    isPrefixOf_false_of_incomp hp (by decide) (by decide)
  simp [stdioRoute, hp, h1, h2, h3, h4]

/-- Without the generic `"explain "` prefix, the one-shot cascade cannot
reach its generic Explain branch. -/
theorem stdioRoute_ne_explain {low : List Char}
    (hf : "explain ".data.isPrefixOf low = false) :
    stdioRoute low ≠ CommandKind.explain := by
  have h1 : "explain connectors".data.isPrefixOf low = false :=
    isPrefixOf_false_of_sub (by decide) hf
  have h2 : "explain schema ".data.isPrefixOf low = false :=
    isPrefixOf_false_of_sub (by decide) hf
  have h3 : "explain graphql ".data.isPrefixOf low = false :=
    isPrefixOf_false_of_sub (by decide) hf
  have h4 : "explain version".data.isPrefixOf low = false :=
    isPrefixOf_false_of_sub (by decide) hf
  have h5 : "explain attributes ".data.isPrefixOf low = false :=
    isPrefixOf_false_of_sub (by decide) hf
  simp only [stdioRoute, h1, h2, h3, h4, h5, hf, Bool.false_eq_true, if_false]
  split_ifs <;> simp

/-- Interactive cascade evaluation under an `"explain schema "` prefix. -/
theorem replRoute_schema {low : List Char}
    (hp : "explain schema ".data.isPrefixOf low = true) :
    replRoute low = CommandKind.explainSchema := by
  have h1 : "validate ".data.isPrefixOf low = false :=
    isPrefixOf_false_of_incomp hp (by decide) (by decide)
  simp [replRoute, hp, h1]

/-- Interactive cascade evaluation under an `"explain graphql "` prefix. -/
theorem replRoute_graphql {low : List Char}
    (hp : "explain graphql ".data.isPrefixOf low = true) :
    replRoute low = CommandKind.explainGraphql := by
  have h1 : "validate ".data.isPrefixOf low = false :=
    isPrefixOf_false_of_incomp hp (by decide) (by decide)
  have h2 : "explain schema ".data.isPrefixOf low = false :=
    isPrefixOf_false_of_incomp hp (by decide) (by decide)
  simp [replRoute, hp, h1, h2]

/-- Interactive cascade evaluation under an `"explain version"` prefix. -/
theorem replRoute_version {low : List Char}
    (hp : "explain version".data.isPrefixOf low = true) :
    replRoute low = CommandKind.explainVersion := by
  have h1 : "validate ".data.isPrefixOf low = false :=
    isPrefixOf_false_of_incomp hp (by decide) (by decide)
  have h2 : "explain schema ".data.isPrefixOf low = false :=
    isPrefixOf_false_of_incomp hp (by decide) (by decide)
  have h3 : "explain graphql ".data.isPrefixOf low = false :=
    isPrefixOf_false_of_incomp hp (by decide) (by decide)
  simp [replRoute, hp, h1, h2, h3]

/-- Interactive cascade evaluation under an `"explain connectors"` prefix. -/
theorem replRoute_connectors {low : List Char}
    (hp : "explain connectors".data.isPrefixOf low = true) :
    replRoute low = CommandKind.explainConnectors := by
  have h1 : "validate ".data.isPrefixOf low = false :=
    isPrefixOf_false_of_incomp hp (by decide) (by decide)
  have h2 : "explain schema ".data.isPrefixOf low = false :=
    isPrefixOf_false_of_incomp hp (by decide) (by decide)
  have h3 : "explain graphql ".data.isPrefixOf low = false :=
    isPrefixOf_false_of_incomp hp (by decide) (by decide)
  have h4 : "explain version".data.isPrefixOf low = false :=
    isPrefixOf_false_of_incomp hp (by decide) (by decide)
  simp [replRoute, hp, h1, h2, h3, h4]

/-- Interactive cascade evaluation under an `"explain attributes "` prefix. -/
theorem replRoute_attributes {low : List Char}
    (hp : "explain attributes ".data.isPrefixOf low = true) :
    replRoute low = CommandKind.explainAttributes := by
  have h1 : "validate ".data.isPrefixOf low = false :=
    isPrefixOf_false_of_incomp hp (by decide) (by decide)
  have h2 : "explain schema ".data.isPrefixOf low = false :=
    isPrefixOf_false_of_incomp hp (by decide) (by decide)
  have h3 : "explain graphql ".data.isPrefixOf low = false :=
    isPrefixOf_false_of_incomp hp (by decide) (by decide)
  have h4 : "explain version".data.isPrefixOf low = false :=
    isPrefixOf_false_of_incomp hp (by decide) (by decide)
  have h5 : "explain connectors".data.isPrefixOf low = false :=
    isPrefixOf_false_of_incomp hp (by decide) (by decide)
  simp [replRoute, hp, h1, h2, h3, h4, h5]

/-- A `"summarize "` prefix sends the one-shot cascade to its summarize
branch: all six explain tests preceding it fail on first-character grounds. -/
theorem stdioRoute_summarize {low : List Char}
    (hp : "summarize ".data.isPrefixOf low = true) :
    stdioRoute low = CommandKind.summarize := by
  have h1 : "explain connectors".data.isPrefixOf low = false :=
    isPrefixOf_false_of_incomp hp (by decide) (by decide)
  have h2 : "explain schema ".data.isPrefixOf low = false :=
    isPrefixOf_false_of_incomp hp (by decide) (by decide)
  have h3 : "explain graphql ".data.isPrefixOf low = false :=
    isPrefixOf_false_of_incomp hp (by decide) (by decide)
  have h4 : "explain version".data.isPrefixOf low = false :=
    isPrefixOf_false_of_incomp hp (by decide) (by decide)
  have h5 : "explain attributes ".data.isPrefixOf low = false :=
    isPrefixOf_false_of_incomp hp (by decide) (by decide)
  have h6 : "explain ".data.isPrefixOf low = false :=
    isPrefixOf_false_of_incomp hp (by decide) (by decide)
  simp [stdioRoute, hp, h1, h2, h3, h4, h5, h6]

/-- A `"summarize "` prefix falls through every branch of the interactive
cascade (which has no summarize branch) to `invalid`. -/
theorem replRoute_summarize_invalid {low : List Char}
    (hp : "summarize ".data.isPrefixOf low = true) :
    replRoute low = CommandKind.invalid := by
  have h1 : "validate ".data.isPrefixOf low = false :=
    isPrefixOf_false_of_incomp hp (by decide) (by decide)
  have h2 : "explain schema ".data.isPrefixOf low = false :=
    isPrefixOf_false_of_incomp hp (by decide) (by decide)
  have h3 : "explain graphql ".data.isPrefixOf low = false :=
    isPrefixOf_false_of_incomp hp (by decide) (by decide)
  have h4 : "explain version".data.isPrefixOf low = false :=
    isPrefixOf_false_of_incomp hp (by decide) (by decide)
  have h5 : "explain connectors".data.isPrefixOf low = false :=
    isPrefixOf_false_of_incomp hp (by decide) (by decide)
  have h6 : "explain attributes ".data.isPrefixOf low = false :=
    isPrefixOf_false_of_incomp hp (by decide) (by decide)
  have h7 : "explain ".data.isPrefixOf low = false :=
    isPrefixOf_false_of_incomp hp (by decide) (by decide)
  have h8 : "query ".data.isPrefixOf low = false :=
    isPrefixOf_false_of_incomp hp (by decide) (by decide)
  have e1 : low ≠ "help".data := ne_of_isPrefixOf hp (by decide)
  have e2 : low ≠ "h".data := ne_of_isPrefixOf hp (by decide)
  have e3 : low ≠ "clear".data := ne_of_isPrefixOf hp (by decide)
  have e4 : low ≠ "exit".data := ne_of_isPrefixOf hp (by decide)
  simp [replRoute, h1, h2, h3, h4, h5, h6, h7, h8, e1, e2, e3, e4]

/-- C3: any input whose trimmed, case-folded form begins with one of the
five specific explain prefixes is never classified as the generic Explain
kind, neither by the interactive outer loop (which trims, skips empty
input, and routes) nor by the one-shot router `process_command` (which
lower-cases its raw, untrimmed input). -/
theorem c3_specific_explain_never_generic :
    ∀ s : String,
      ("explain connectors".data.isPrefixOf (toLowerL (trimL s.data)) = true ∨
       "explain version".data.isPrefixOf (toLowerL (trimL s.data)) = true ∨
       "explain schema ".data.isPrefixOf (toLowerL (trimL s.data)) = true ∨
       "explain graphql ".data.isPrefixOf (toLowerL (trimL s.data)) = true ∨
       "explain attributes ".data.isPrefixOf (toLowerL (trimL s.data)) = true) →
      replProcessInput s.data ≠ ReplOutcome.routed CommandKind.explain ∧
      classifyStdioL s.data ≠ CommandKind.explain := by
  intro s hp5
  constructor
  · intro hcon
    by_cases ht : trimL s.data = []
    · simp [replProcessInput, ht] at hcon
    · simp only [replProcessInput, if_neg ht, ReplOutcome.routed.injEq] at hcon
      have hroute : replRoute (toLowerL (trimL s.data)) = CommandKind.explain := by
        simpa [classifyReplL] using hcon
      rcases hp5 with h | h | h | h | h
      · rw [replRoute_connectors h] at hroute; exact CommandKind.noConfusion hroute
      · rw [replRoute_version h] at hroute; exact CommandKind.noConfusion hroute
      · rw [replRoute_schema h] at hroute; exact CommandKind.noConfusion hroute
      · rw [replRoute_graphql h] at hroute; exact CommandKind.noConfusion hroute
      · rw [replRoute_attributes h] at hroute; exact CommandKind.noConfusion hroute
  · intro hcon
    by_cases hnil : s.data = []
    · rw [hnil] at hp5
      exact absurd hp5 (by decide)
    · obtain ⟨c, rest, hcr⟩ : ∃ c rest, s.data = c :: rest := by
        cases hd : s.data with
        | nil => exact absurd hd hnil
        | cons a as => exact ⟨a, as, rfl⟩
      have hstdio : stdioRoute (toLowerL s.data) = CommandKind.explain := by
        unfold classifyStdioL at hcon
        rw [if_neg hnil] at hcon
        exact hcon
      by_cases hws : isWs c = true
      · by_cases hexp : "explain ".data.isPrefixOf (toLowerL s.data) = true
        · rw [hcr] at hexp
          have e1 : toLowerL (c :: rest) = lowerChar c :: toLowerL rest := rfl
          have e2 : "explain ".data = 'e' :: "xplain ".data := by decide
          rw [e1, e2] at hexp
          have hhead := head_beq_of_isPrefixOf hexp
          rw [beq_lowerChar_ws_false hws (by decide)] at hhead
          exact Bool.noConfusion hhead
        · exact stdioRoute_ne_explain (Bool.eq_false_iff.mpr hexp) hstdio
      · have hws' : isWs c = false := by simpa using hws
        rcases hp5 with h | h | h | h | h
        · rw [stdioRoute_connectors (isPrefixOf_toLower_of_trim hcr hws' h)] at hstdio
          exact CommandKind.noConfusion hstdio
        · rw [stdioRoute_version (isPrefixOf_toLower_of_trim hcr hws' h)] at hstdio
          exact CommandKind.noConfusion hstdio
        · rw [stdioRoute_schema (isPrefixOf_toLower_of_trim hcr hws' h)] at hstdio
          exact CommandKind.noConfusion hstdio
        · rw [stdioRoute_graphql (isPrefixOf_toLower_of_trim hcr hws' h)] at hstdio
          exact CommandKind.noConfusion hstdio
        · rw [stdioRoute_attributes (isPrefixOf_toLower_of_trim hcr hws' h)] at hstdio
          exact CommandKind.noConfusion hstdio

/-- C3 witness: the concrete input `"explain version"` is not routed to the
generic Explain kind by the one-shot router. -/
theorem c3_witness :
    classifyStdioL "explain version".data ≠ CommandKind.explain :=
  (c3_specific_explain_never_generic "explain version" (by decide)).2

/-- C5 (amended): an input whose trimmed, case-folded form begins with
`"summarize "` is routed to the Summarize kind by the one-shot router as
invoked from the pipe and file drivers (which trim first) — and by the raw
router whenever its case-folded input itself begins with `"summarize "` —
but the interactive shell's router has no summarize branch and classifies
such input Invalid. -/
theorem c5_summarize_routing :
    ∀ s : String,
      ("summarize ".data.isPrefixOf (toLowerL (trimL s.data)) = true →
        pipeRoute s = CommandKind.summarize ∧
        replProcessInput s.data = ReplOutcome.routed CommandKind.invalid) ∧
      ("summarize ".data.isPrefixOf (toLowerL s.data) = true →
        classifyStdioL s.data = CommandKind.summarize) := by
  intro s
  constructor
  · intro h
    have hne : trimL s.data ≠ [] := by
      intro e
      rw [e] at h
      exact absurd h (by decide)
    constructor
    · unfold pipeRoute classifyStdioL
      rw [if_neg hne]
      exact stdioRoute_summarize h
    · simp only [replProcessInput, if_neg hne, ReplOutcome.routed.injEq]
      simpa [classifyReplL] using replRoute_summarize_invalid h
  · intro h
    have hne : s.data ≠ [] := by
      intro e
      rw [e] at h
      exact absurd h (by decide)
    unfold classifyStdioL
    rw [if_neg hne]
    exact stdioRoute_summarize h

/-- C5 counterexample: the input `"summarize x"` is in the claim's scope
(its trimmed, case-folded form begins with `"summarize "`), yet the
interactive shell routes it to Invalid, not Summarize — the claim fails for
the interactive mode. -/
theorem c5_counterexample :
    "summarize ".data.isPrefixOf (toLowerL (trimL "summarize x".data)) = true ∧
    replProcessInput "summarize x".data = ReplOutcome.routed CommandKind.invalid := by
  decide

/-- C5 witness: the amended theorem at the concrete input `"summarize x"`
in the pipe/file path. -/
theorem c5_witness : pipeRoute "summarize x" = CommandKind.summarize :=
  ((c5_summarize_routing "summarize x").1 (by decide)).1

/-- C9 (amended): routing is case-insensitive in every path (inputs with
equal case-folded forms route identically), and inputs with equal trimmed,
case-folded forms route identically through the interactive, pipe, and
file paths, which trim before routing; the `-c` switch, however, hands its
argument to `process_command` untrimmed, so `"  query x  "` classifies
Invalid there while `"Query x"` and `"QUERY x"` classify Query. -/
theorem c9_routing_normalization :
    (∀ s₁ s₂ : String, toLowerL s₁.data = toLowerL s₂.data →
      classifyStdioL s₁.data = classifyStdioL s₂.data) ∧
    (∀ s₁ s₂ : String, toLowerL (trimL s₁.data) = toLowerL (trimL s₂.data) →
      pipeRoute s₁ = pipeRoute s₂ ∧
      replProcessInput s₁.data = replProcessInput s₂.data) ∧
    classifyStdioL "Query x".data = CommandKind.query ∧
    classifyStdioL "QUERY x".data = CommandKind.query ∧
    pipeRoute "  query x  " = CommandKind.query ∧
    classifyStdioL "  query x  ".data = CommandKind.invalid := by
  have key : ∀ l₁ l₂ : List Char, toLowerL l₁ = toLowerL l₂ → (l₁ = [] ↔ l₂ = []) := by
    intro l₁ l₂ h
    constructor
    · intro e
      have e2 : toLowerL l₂ = [] := by rw [← h, e]; rfl
      exact List.map_eq_nil_iff.mp e2
    · intro e
      have e2 : toLowerL l₁ = [] := by rw [h, e]; rfl
      exact List.map_eq_nil_iff.mp e2
  refine ⟨?_, ?_, by decide, by decide, by decide, by decide⟩
  · intro s₁ s₂ h
    unfold classifyStdioL
    by_cases h1 : s₁.data = []
    · rw [if_pos h1, if_pos ((key _ _ h).mp h1)]
    · rw [if_neg h1, if_neg (fun e => h1 ((key _ _ h).mpr e)), h]
  · intro s₁ s₂ h
    constructor
    · unfold pipeRoute classifyStdioL
      by_cases h1 : trimL s₁.data = []
      · rw [if_pos h1, if_pos ((key _ _ h).mp h1)]
      · rw [if_neg h1, if_neg (fun e => h1 ((key _ _ h).mpr e)), h]
    · unfold replProcessInput classifyReplL
      by_cases h1 : trimL s₁.data = []
      · rw [if_pos h1, if_pos ((key _ _ h).mp h1)]
      · rw [if_neg h1, if_neg (fun e => h1 ((key _ _ h).mpr e)), h]

/-- C9 counterexample: in the `-c` routing path the router receives its
input untrimmed, so surrounding whitespace changes the routing:
`"  query x  "` classifies Invalid while `"Query x"` classifies Query. -/
theorem c9_counterexample :
    classifyStdioL "  query x  ".data = CommandKind.invalid ∧
    classifyStdioL "Query x".data = CommandKind.query ∧
    classifyStdioL "  query x  ".data ≠ classifyStdioL "Query x".data := by
  decide

/-- C9 witness: case-insensitivity applied to the concrete pair
`"Query x"` / `"qUERY x"`. -/
theorem c9_witness :
    classifyStdioL "Query x".data = classifyStdioL "qUERY x".data :=
  c9_routing_normalization.1 "Query x" "qUERY x" (by decide)

/-- C6 (amended): a blank first line is staged as an empty command
(src/repl.rs:384,396), but the outer loop's empty-input check
(src/repl.rs:422-425) then skips it silently: the router is never invoked,
and the user sees nothing — even though the router, had it been invoked on
empty input, would have classified it Invalid. -/
theorem c6_blank_first_line :
    runAccum accEmpty [[]] = some [] ∧
    replCycle [[]] = some ReplOutcome.skipped ∧
    classifyReplL [] = CommandKind.invalid := by decide

/-- C6 counterexample: the staged empty command resulting from a blank
first line is skipped, not handed to the router as an Invalid command, so
the claimed invalid-command handling never happens. -/
theorem c6_counterexample :
    replCycle [[]] = some ReplOutcome.skipped ∧
    replCycle [[]] ≠ some (ReplOutcome.routed CommandKind.invalid) := by decide

/-- C8 (amended): `"hello"` is a bare one-word line and therefore stages
immediately by the one-word rule (src/repl.rs:386-390) — the following
blank line is never needed; a first line with an interior space, such as
`"hello there"`, stages only after the blank line (threshold 1); `"help"`
stages immediately. -/
theorem c8_accumulator_staging :
    runAccum accEmpty ["hello".data] = some "hello".data ∧
    runAccum accEmpty ["hello there".data] = none ∧
    runAccum accEmpty ["hello there".data, [] ] = some "hello there".data ∧
    runAccum accEmpty ["help".data] = some "help".data := by decide

/-- C8 counterexample: feeding the single line `"hello"` already stages the
command `"hello"` — staging does not wait for the blank line the claim says
triggers it. -/
theorem c8_counterexample :
    accStep accEmpty "hello".data = StepResult.staged "hello\n".data ∧
    runAccum accEmpty ["hello".data] = some "hello".data := by decide

end Fsqlctl
